import Mathlib

/-!
Shallow embedding of the syncthingers process-supervision core
(src/process.rs, src/app_state.rs, src/process_monitor.rs, src/tray_ui.rs).

The Windows code path is the operative one in the source (detection,
job objects, taskkill); it is what we embed.  OS interaction is made
explicit through an `OsState` record (the process table plus flags for
the outcome of each OS call) and each embedded operation returns, next
to its Rust return value, the new struct state and the list of OS
actions it performed, so that "which processes were terminated" is
observable in theorems.
-/

/-- Outcome of a fallible OS call (`io::Result` errors in the source). -/
inductive IoError where
  | enumFailed
  | jobCreateFailed
  | spawnFailed
  | assignFailed
deriving DecidableEq, Repr

/-- Rendering of the io error used when the source formats it into a message. -/
def IoError.msg : IoError → String
  | IoError.enumFailed => "process table query failed"
  | IoError.jobCreateFailed => "Failed to create Job Object"
  | IoError.spawnFailed => "spawn failed"
  | IoError.assignFailed => "Failed to assign process to Job Object"

/-- `AppError` from src/error_handling.rs (only the variants the core uses). -/
inductive AppError where
  | processError (msg : String)
  | trayUiError (msg : String)
deriving DecidableEq, Repr

/-- `ProcessEvent` from src/process_monitor.rs. -/
inductive ProcessEvent where
  | Started
  | Exited
  | StateChanged
  | Error
deriving DecidableEq, Repr

/-- `ProcessClosureBehavior` from src/config.rs. -/
inductive ProcessClosureBehavior where
  | CloseAll
  | CloseManaged
  | DontClose
deriving DecidableEq, Repr

/-- The configuration fields the supervision core reads (src/config.rs). -/
structure Config where
  syncthing_path : String
  startup_args : List String
  process_closure_behavior : ProcessClosureBehavior
  auto_launch_internal : Bool
deriving DecidableEq, Repr

/-- A spawned `std::process::Child`: its pid plus the exit status cached by
`try_wait` once the child has been reaped (Rust caches the status and
subsequent `try_wait` calls return it again). -/
structure Child where
  pid : Nat
  cachedStatus : Option Nat
deriving DecidableEq, Repr

/-- `SyncthingProcess` from src/process.rs.  `has_app_state` models whether the
`app_state : Option<Weak<Mutex<AppState>>>` field is `Some` (it is only ever
used to decide whether an exit monitor is registered); `monitor_handle` keeps
just the presence of the registration. -/
structure SyncthingProcess where
  child : Option Child
  started_by_app : Bool
  syncthing_path : String
  pid : Option Nat
  job_handle : Option Nat
  monitor_handle : Option Unit
  has_app_state : Bool
deriving DecidableEq, Repr

/-- Explicit state of the OS as seen by the embedded operations: the process
table (pid, executable path) and the outcome of each OS call the code makes.
`killDenied` records that the OS would deny kill/taskkill requests; the source
discards those results (`let _ = child.kill()`, `let _ = Command::new("taskkill")
... .output()`), so no embedded function reads this field. -/
structure OsState where
  table : List (Nat × String)
  enumFails : Bool
  jobCreateOk : Bool
  jobId : Nat
  spawnResult : Option Nat
  assignOk : Bool
  openProcOk : Bool
  monitorRegOk : Bool
  killDenied : Bool
  tryWaitFails : Bool
deriving DecidableEq, Repr

/-- One OS-level action performed by an embedded operation. -/
inductive OsAction where
  | spawn (path : String) (args : List String)
  | terminateJob (job : Nat)
  | killChild (pid : Nat)
  | taskkill (pid : Nat)
  | enumQuery (name : String)
deriving DecidableEq, Repr

/-- The pids of the taskkill requests inside an action list. -/
def taskkills (acts : List OsAction) : List Nat :=
  acts.filterMap (fun a =>
    match a with
    | OsAction.taskkill p => some p
    | _ => none)

/-- The spawn actions inside an action list. -/
def spawnsOf (acts : List OsAction) : List OsAction :=
  acts.filter (fun a =>
    match a with
    | OsAction.spawn _ _ => true
    | _ => false)

/-- `Path::new(p).file_name()`: the component after the last path separator.
(The Rust normalisation of trailing `.` and `..` components is not needed by
any claim and is not modelled.)  An empty result models `file_name()`
returning `None`. -/
def fileName (p : String) : String :=
  String.mk (p.toList.foldl
    (fun acc c => if c = '/' ∨ c = '\\' then [] else acc ++ [c]) [])

/-- `file_name().unwrap_or_else(|| dflt)` as used in `SyncthingProcess::stop`. -/
def fileNameOr (p : String) (dflt : String) : String :=
  if fileName p = "" then dflt else fileName p

/-- `str::to_lowercase` as used for the case-insensitive comparisons
(character-wise lowercasing; the paths involved are ASCII). -/
def toLowerStr (s : String) : String :=
  String.mk (s.toList.map Char.toLower)

/-- `SyncthingProcess::enumerate_processes_by_name` (the WMIC query): all
table entries whose image name matches `process_name` case-insensitively. -/
def enumerate_processes_by_name (os : OsState) (process_name : String) :
    Except IoError (List (Nat × String)) :=
  if os.enumFails then Except.error IoError.enumFailed
  else Except.ok (os.table.filter
    (fun e => toLowerStr (fileName e.2) == toLowerStr process_name))

/-- `SyncthingProcess::new`. -/
def SyncthingProcess.new (path : String) (has_app_state : Bool) : SyncthingProcess :=
  { syncthing_path := path
    child := none
    started_by_app := false
    pid := none
    job_handle := none
    monitor_handle := none
    has_app_state := has_app_state }

/-- Result of `SyncthingProcess::start`: the updated struct, the OS actions
performed and the `io::Result<()>` value. -/
structure StartResult where
  proc : SyncthingProcess
  actions : List OsAction
  result : Except IoError Unit
deriving Repr

/-- `SyncthingProcess::start` (Windows branch): create a job object, spawn,
assign the child to the job, record pid/child/job, register the exit monitor
when an `app_state` reference is present (a registration failure is logged and
absorbed).  There is no already-running check anywhere in this function. -/
def SyncthingProcess.start (self : SyncthingProcess) (args : List String)
    (os : OsState) : StartResult :=
  if !os.jobCreateOk then
    ⟨self, [], Except.error IoError.jobCreateFailed⟩
  else
    match os.spawnResult with
    | none => ⟨self, [OsAction.spawn self.syncthing_path args],
        Except.error IoError.spawnFailed⟩
    | some newPid =>
      if !os.assignOk then
        ⟨self, [OsAction.spawn self.syncthing_path args],
          Except.error IoError.assignFailed⟩
      else
        let s1 : SyncthingProcess :=
          { self with
            child := some { pid := newPid, cachedStatus := none }
            started_by_app := true
            pid := some newPid
            job_handle := some os.jobId }
        let s2 : SyncthingProcess :=
          if self.has_app_state && os.monitorRegOk then
            { s1 with monitor_handle := some () }
          else s1
        ⟨s2, [OsAction.spawn self.syncthing_path args], Except.ok ()⟩

/-- Result of `SyncthingProcess::stop`. -/
structure StopResult where
  proc : SyncthingProcess
  actions : List OsAction
  result : Except IoError Unit
deriving Repr

/-- `SyncthingProcess::stop`: terminate the job object when one is owned
(clearing `job_handle`); otherwise, for an external handle (no child, not
started by the app), re-enumerate by image name and taskkill every process
whose full path matches case-insensitively (kill outcomes discarded); finally
kill the owned child when present (result discarded) and clear `child`.
Only the enumeration can make this function return an error. -/
def SyncthingProcess.stop (self : SyncthingProcess) (os : OsState) : StopResult :=
  match self.job_handle with
  | some job =>
    let s1 : SyncthingProcess := { self with job_handle := none }
    match s1.child with
    | some c =>
      ⟨{ s1 with child := none },
        [OsAction.terminateJob job, OsAction.killChild c.pid], Except.ok ()⟩
    | none => ⟨s1, [OsAction.terminateJob job], Except.ok ()⟩
  | none =>
    if self.child.isNone && !self.started_by_app then
      let filename := fileNameOr self.syncthing_path "syncthing.exe"
      match enumerate_processes_by_name os filename with
      | Except.error e =>
        ⟨self, [OsAction.enumQuery filename], Except.error e⟩
      | Except.ok procs =>
        let victims := procs.filter
          (fun e => toLowerStr e.2 == toLowerStr self.syncthing_path)
        ⟨self,
          OsAction.enumQuery filename :: victims.map (fun e => OsAction.taskkill e.1),
          Except.ok ()⟩
    else
      match self.child with
      | some c => ⟨{ self with child := none }, [OsAction.killChild c.pid], Except.ok ()⟩
      | none => ⟨self, [], Except.ok ()⟩

/-- Result of `SyncthingProcess::detect_process`. -/
structure DetectResult where
  actions : List OsAction
  result : Except IoError (Option SyncthingProcess)
deriving Repr

/-- `SyncthingProcess::detect_process`: enumerate by the executable file name
and return a handle (ownership `started_by_app = false`) for the first table
entry whose full path matches case-insensitively; the exit monitor is
registered when an `app_state` reference was supplied and both `OpenProcess`
and the wait registration succeed (failures logged and absorbed).  An empty
file name yields `Ok(None)`; an enumeration failure propagates as `Err`. -/
def SyncthingProcess.detect_process (exe_path : String) (external_only : Bool)
    (has_app_state : Bool) (os : OsState) : DetectResult :=
  let exe_filename := fileName exe_path
  if exe_filename = "" then ⟨[], Except.ok none⟩
  else
    match enumerate_processes_by_name os exe_filename with
    | Except.error e => ⟨[OsAction.enumQuery exe_filename], Except.error e⟩
    | Except.ok procs =>
      match procs.find? (fun e => toLowerStr e.2 == toLowerStr exe_path) with
      | some entry =>
        let registered := has_app_state && os.openProcOk && os.monitorRegOk
        ⟨[OsAction.enumQuery exe_filename],
          Except.ok (some
            { syncthing_path := exe_path
              child := none
              started_by_app := false
              pid := some entry.1
              job_handle := none
              monitor_handle := if registered then some () else none
              has_app_state := has_app_state })⟩
      | none => ⟨[OsAction.enumQuery exe_filename], Except.ok none⟩

/-- Result of `SyncthingProcess::is_running` (which takes `&mut self`). -/
structure RunResult where
  running : Bool
  proc : SyncthingProcess
  actions : List OsAction
deriving Repr

/-- `SyncthingProcess::is_running`: for an owned child, a non-blocking
`try_wait` (an already-cached exit status answers false; otherwise liveness is
the presence of the pid in the table, and on first observing the exit the
status is cached); for an external pid-only handle, re-run detection and
report whether a matching process exists (detection failure answers false);
all other field combinations answer false.  No field other than the cached
wait status is ever modified. -/
def SyncthingProcess.is_running (self : SyncthingProcess) (os : OsState) : RunResult :=
  match self.child, self.started_by_app with
  | some c, true =>
    match c.cachedStatus with
    | some _ => ⟨false, self, []⟩
    | none =>
      if os.tryWaitFails then ⟨false, self, []⟩
      else if os.table.any (fun e => e.1 == c.pid) then ⟨true, self, []⟩
      else ⟨false, { self with child := some { c with cachedStatus := some 0 } }, []⟩
  | none, false =>
    let d := SyncthingProcess.detect_process self.syncthing_path false
      self.has_app_state os
    match d.result with
    | Except.ok r => ⟨r.isSome, self, d.actions⟩
    | Except.error _ => ⟨false, self, d.actions⟩
  | _, _ => ⟨false, self, []⟩

/-- `AppState` from src/app_state.rs (`has_sender` models whether a
`process_state_sender` has been registered; `app_dirs` is outside the core). -/
structure AppState where
  config : Config
  syncthing_process : Option SyncthingProcess
  has_sender : Bool
deriving Repr

/-- `AppState::new`: detect an external process (passing no app-state weak
reference), absorbing both absence and detection failure into `None`. -/
def AppState.new (config : Config) (os : OsState) : AppState :=
  let detected :=
    match (SyncthingProcess.detect_process config.syncthing_path true false os).result with
    | Except.ok (some proc) => some proc
    | Except.ok none => none
    | Except.error _ => none
  { config := config, syncthing_process := detected, has_sender := false }

/-- Result of `AppState::detect_and_attach_external`. -/
structure AttachResult where
  state : AppState
  actions : List OsAction
  result : Except AppError Bool
deriving Repr

/-- `AppState::detect_and_attach_external`: attach the detected handle and
report `Ok(true)`, report `Ok(false)` when none matches, and propagate a
detection failure to the caller as an `AppError`. -/
def AppState.detect_and_attach_external (st : AppState) (os : OsState) : AttachResult :=
  let d := SyncthingProcess.detect_process st.config.syncthing_path true false os
  match d.result with
  | Except.ok (some proc) =>
    ⟨{ st with syncthing_process := some proc }, d.actions, Except.ok true⟩
  | Except.ok none => ⟨st, d.actions, Except.ok false⟩
  | Except.error e =>
    ⟨st, d.actions,
      Except.error (AppError.processError
        ("Failed to detect external Syncthing: " ++ e.msg))⟩

/-- Result of `AppState::syncthing_running` (which takes `&mut self`). -/
structure RunningResult where
  running : Bool
  state : AppState
  actions : List OsAction
  events : List ProcessEvent
deriving Repr

/-- `AppState::syncthing_running`: ask the tracked handle; on a dead tracked
handle clear it and send `StateChanged`; with no tracked handle try to detect
and attach an external one (a detection error is logged and answered with
false), sending `StateChanged` on a successful attach. -/
def AppState.syncthing_running (st : AppState) (os : OsState) : RunningResult :=
  match st.syncthing_process with
  | some p =>
    let r := p.is_running os
    if r.running then
      ⟨true, { st with syncthing_process := some r.proc }, r.actions, []⟩
    else
      ⟨false, { st with syncthing_process := none }, r.actions,
        if st.has_sender then [ProcessEvent.StateChanged] else []⟩
  | none =>
    let a := st.detect_and_attach_external os
    match a.result with
    | Except.error _ => ⟨false, a.state, a.actions, []⟩
    | Except.ok _ =>
      match a.state.syncthing_process with
      | some _ =>
        ⟨true, a.state, a.actions,
          if st.has_sender then [ProcessEvent.StateChanged] else []⟩
      | none => ⟨false, a.state, a.actions, []⟩

/-- Result of a mutating `AppState` operation returning `Result<(), AppError>`. -/
structure StateResult where
  state : AppState
  actions : List OsAction
  events : List ProcessEvent
  result : Except AppError Unit
deriving Repr

/-- `AppState::start_syncthing`: return `Ok` without spawning when
`syncthing_running()` reports true; otherwise build a fresh handle (no
app-state reference), start it, store it on success and send `Started`. -/
def AppState.start_syncthing (st : AppState) (os : OsState) : StateResult :=
  let r := st.syncthing_running os
  if r.running then ⟨r.state, r.actions, r.events, Except.ok ()⟩
  else
    let p0 := SyncthingProcess.new r.state.config.syncthing_path false
    let sr := p0.start r.state.config.startup_args os
    match sr.result with
    | Except.error e =>
      ⟨r.state, r.actions ++ sr.actions, r.events,
        Except.error (AppError.processError
          ("Failed to start Syncthing: " ++ e.msg))⟩
    | Except.ok _ =>
      ⟨{ r.state with syncthing_process := some sr.proc },
        r.actions ++ sr.actions,
        r.events ++ (if r.state.has_sender then [ProcessEvent.Started] else []),
        Except.ok ()⟩

/-- `AppState::stop_syncthing`: stop the tracked handle when there is one; an
error from `stop()` returns early (the handle, as mutated in place by `stop`,
stays tracked and no event is sent); on success send `Exited`; in every
non-error path the tracked handle is finally replaced with `None`. -/
def AppState.stop_syncthing (st : AppState) (os : OsState) : StateResult :=
  match st.syncthing_process with
  | some p =>
    let sr := p.stop os
    match sr.result with
    | Except.error e =>
      ⟨{ st with syncthing_process := some sr.proc }, sr.actions, [],
        Except.error (AppError.processError
          ("Failed to stop Syncthing: " ++ e.msg))⟩
    | Except.ok _ =>
      ⟨{ st with syncthing_process := none }, sr.actions,
        if st.has_sender then [ProcessEvent.Exited] else [],
        Except.ok ()⟩
  | none => ⟨{ st with syncthing_process := none }, [], [], Except.ok ()⟩

/-- `AppState::stop_managed_syncthing_processes`: stop the tracked handle only
when it was started by the app; leave an external handle untouched. -/
def AppState.stop_managed_syncthing_processes (st : AppState) (os : OsState) :
    StateResult :=
  match st.syncthing_process with
  | some p =>
    if p.started_by_app then st.stop_syncthing os
    else ⟨st, [], [], Except.ok ()⟩
  | none => ⟨st, [], [], Except.ok ()⟩

/-- Result of `AppState::stop_external_syncthing_processes` (`&self`: it never
mutates the application state). -/
structure ExternalStopResult where
  actions : List OsAction
  result : Except AppError Unit
deriving Repr

/-- `AppState::stop_external_syncthing_processes`: detect a matching external
process afresh and stop it; errors from either step are returned. -/
def AppState.stop_external_syncthing_processes (st : AppState) (os : OsState) :
    ExternalStopResult :=
  let d := SyncthingProcess.detect_process st.config.syncthing_path true false os
  match d.result with
  | Except.ok (some proc) =>
    let sr := proc.stop os
    match sr.result with
    | Except.error e =>
      ⟨d.actions ++ sr.actions,
        Except.error (AppError.processError
          ("Failed to stop external Syncthing: " ++ e.msg))⟩
    | Except.ok _ => ⟨d.actions ++ sr.actions, Except.ok ()⟩
  | Except.ok none => ⟨d.actions, Except.ok ()⟩
  | Except.error e =>
    ⟨d.actions,
      Except.error (AppError.processError
        ("Failed to detect external Syncthing: " ++ e.msg))⟩

/-- `AppState::stop_all_syncthing_processes`: stop the tracked handle (result
discarded), then best-effort-stop any remaining external process (error
logged), always reporting `Ok`. -/
def AppState.stop_all_syncthing_processes (st : AppState) (os : OsState) :
    StateResult :=
  let r1 := st.stop_syncthing os
  let r2 := r1.state.stop_external_syncthing_processes os
  ⟨r1.state, r1.actions ++ r2.actions, r1.events, Except.ok ()⟩

/-- `AppState::handle_exit_closure`: dispatch on the configured closure
behavior. -/
def AppState.handle_exit_closure (st : AppState) (os : OsState) : StateResult :=
  match st.config.process_closure_behavior with
  | ProcessClosureBehavior.CloseAll => st.stop_all_syncthing_processes os
  | ProcessClosureBehavior.CloseManaged => st.stop_managed_syncthing_processes os
  | ProcessClosureBehavior.DontClose => ⟨st, [], [], Except.ok ()⟩

/-- Result of `AppState::handle_process_exit`. -/
structure ExitHandleResult where
  state : AppState
  actions : List OsAction
  events : List ProcessEvent
deriving Repr

/-- `AppState::handle_process_exit`: when the exited pid is the tracked one,
clear the handle and send `Exited`; otherwise, for a tracked external handle,
re-detect — absence clears the handle and sends `Exited`, presence or a
detection error changes nothing.  With no tracked process it does nothing. -/
def AppState.handle_process_exit (st : AppState) (pid : Nat) (os : OsState) :
    ExitHandleResult :=
  match st.syncthing_process with
  | some p =>
    if p.pid == some pid then
      ⟨{ st with syncthing_process := none }, [],
        if st.has_sender then [ProcessEvent.Exited] else []⟩
    else if !p.started_by_app then
      let d := SyncthingProcess.detect_process st.config.syncthing_path true false os
      match d.result with
      | Except.ok none =>
        ⟨{ st with syncthing_process := none }, d.actions,
          if st.has_sender then [ProcessEvent.Exited] else []⟩
      | Except.ok (some _) => ⟨st, d.actions, []⟩
      | Except.error _ => ⟨st, d.actions, []⟩
    else ⟨st, [], []⟩
  | none => ⟨st, [], []⟩

/-- `TrayState` from src/tray_ui.rs. -/
inductive TrayState where
  | Running
  | Stopped
deriving DecidableEq, Repr

/-- `TrayUi::get_current_process_state`: the status shown for the current
application state together with its origin string — `Running` exactly when a
process is tracked (the snapshot field is read; no liveness re-query). -/
def TrayUi.get_current_process_state (st : AppState) : TrayState × String :=
  match st.syncthing_process with
  | some p =>
    if p.started_by_app then (TrayState.Running, "started by app")
    else (TrayState.Running, "external")
  | none => (TrayState.Stopped, "not running")

/-- What `recv_timeout` produced in one iteration of the monitoring loop
(the disconnection case exits the loop and is not a step). -/
inductive RecvOutcome where
  | event (e : ProcessEvent)
  | timeout
deriving DecidableEq, Repr

/-- One iteration of the consumer loop in `TrayUi::start_monitoring_thread`:
`Started`/`Exited` events are mapped directly to `Running`/`Stopped`; any
other event, and a timeout, re-derive the status from `AppState`; the tray is
updated (and `last_state` advanced) exactly when the new status differs from
`last_state`.  Returns the new `last_state` and whether the UI was updated. -/
def TrayUi.monitor_step (recv : RecvOutcome) (st : AppState)
    (last_state : Option TrayState) : Option TrayState × Bool :=
  let new_state :=
    match recv with
    | RecvOutcome.event ProcessEvent.Started =>
      (TrayState.Running, "started by event")
    | RecvOutcome.event ProcessEvent.Exited =>
      (TrayState.Stopped, "exited by event")
    | RecvOutcome.event _ => TrayUi.get_current_process_state st
    | RecvOutcome.timeout => TrayUi.get_current_process_state st
  if last_state ≠ some new_state.1 then (some new_state.1, true)
  else (last_state, false)

/-- The processes the configured executable identity matches in the current
table: image name equal to the configured file name and full path equal to the
configured path, both case-insensitively (§4.1 strong match). -/
def matching_pids (os : OsState) (cfgPath : String) : List Nat :=
  ((os.table.filter
      (fun e => toLowerStr (fileName e.2) == toLowerStr (fileNameOr cfgPath "syncthing.exe"))).filter
    (fun e => toLowerStr e.2 == toLowerStr cfgPath)).map (fun e => e.1)

/-! ### Concrete fixtures used by witnesses and counterexamples -/

/-- An OS state with two processes matching the configured identity (42 and
77, the second differing only in letter case) and every OS call succeeding,
but with kill requests denied. -/
def exOs : OsState :=
  { table := [(42, "c:\\st\\syncthing.exe"), (77, "C:\\ST\\SYNCTHING.EXE")]
    enumFails := false
    jobCreateOk := true
    jobId := 11
    spawnResult := some 57
    assignOk := true
    openProcOk := true
    monitorRegOk := true
    killDenied := true
    tryWaitFails := false }

/-- The same OS but the process-table query itself fails. -/
def exOsEnumFail : OsState := { exOs with enumFails := true, killDenied := false }

/-- The same OS extended with a live child process of pid 5. -/
def exOsWithChild : OsState :=
  { exOs with table := (5, "c:\\st\\syncthing.exe") :: exOs.table, killDenied := false }

/-- An External (detected) handle tracking pid 42, with a registered monitor. -/
def exExternalHandle : SyncthingProcess :=
  { child := none
    started_by_app := false
    syncthing_path := "c:\\st\\syncthing.exe"
    pid := some 42
    job_handle := none
    monitor_handle := some ()
    has_app_state := true }

/-- A ManagedByApp handle owning a live child of pid 5 inside job object 9. -/
def exManagedHandle : SyncthingProcess :=
  { child := some { pid := 5, cachedStatus := none }
    started_by_app := true
    syncthing_path := "c:\\st\\syncthing.exe"
    pid := some 5
    job_handle := some 9
    monitor_handle := none
    has_app_state := false }

/-- A configuration pointing at the fixture path. -/
def exConfig (b : ProcessClosureBehavior) : Config :=
  { syncthing_path := "c:\\st\\syncthing.exe"
    startup_args := ["-no-browser"]
    process_closure_behavior := b
    auto_launch_internal := false }

/-- An application state with a registered event sender. -/
def exStateWith (b : ProcessClosureBehavior) (p : Option SyncthingProcess) : AppState :=
  { config := exConfig b, syncthing_process := p, has_sender := true }

/-! ### Helper lemmas -/

/-- `stop` can only fail before mutating the handle (the enumeration in the
external branch), so on an error the returned handle equals the input. -/
theorem SyncthingProcess.stop_error_proc_eq (h : SyncthingProcess) (os : OsState)
    (e : IoError) (he : (h.stop os).result = Except.error e) : (h.stop os).proc = h := by
  obtain ⟨child, flag, path, pid, job, mon, has⟩ := h
  cases henum : os.enumFails <;>
    cases job <;> cases child <;> cases flag <;>
      simp_all [SyncthingProcess.stop, enumerate_processes_by_name]

/-- Characterisation of `stop` on an external-shaped handle with a working
process table: the handle is returned unchanged and one taskkill is issued per
matching table entry. -/
theorem SyncthingProcess.stop_external_spec (h : SyncthingProcess) (os : OsState)
    (hc : h.child = none) (hf : h.started_by_app = false) (hj : h.job_handle = none)
    (he : os.enumFails = false) :
    h.stop os =
      ⟨h, OsAction.enumQuery (fileNameOr h.syncthing_path "syncthing.exe") ::
        ((os.table.filter (fun e => toLowerStr (fileName e.2) ==
            toLowerStr (fileNameOr h.syncthing_path "syncthing.exe"))).filter
          (fun e => toLowerStr e.2 == toLowerStr h.syncthing_path)).map
          (fun e => OsAction.taskkill e.1),
        Except.ok ()⟩ := by
  obtain ⟨child, flag, path, pid, job, mon, has⟩ := h
  simp only at hc hf hj
  subst hc hf hj
  simp [SyncthingProcess.stop, enumerate_processes_by_name, he]

/-- The taskkills of an external-shaped `stop` are exactly the pids the
configured identity matches. -/
theorem SyncthingProcess.stop_external_taskkills (h : SyncthingProcess) (os : OsState)
    (hc : h.child = none) (hf : h.started_by_app = false) (hj : h.job_handle = none)
    (he : os.enumFails = false) :
    taskkills (h.stop os).actions = matching_pids os h.syncthing_path := by
  rw [SyncthingProcess.stop_external_spec h os hc hf hj he]
  unfold taskkills matching_pids
  simp only [List.filterMap_cons, List.filter_filter]
  generalize (os.table.filter _) = l
  induction l with
  | nil => rfl
  | cons x xs ih => simpa using ih

/-- Replacing the tracked handle by the handle it already holds is the
identity on the application state. -/
theorem AppState.set_tracked_eq_self (st : AppState) (p : SyncthingProcess)
    (hp : st.syncthing_process = some p) :
    { st with syncthing_process := some p } = st := by
  cases st
  simp_all

/-! ### Claim C1 -/

/-- Claim C1 is false on the code at a concrete input: `stop()` on an External
handle returns success, yet leaves `primary_pid` at `Some 42` and the Exit
Monitor registration in place — it clears neither. -/
theorem C1_counterexample :
    (exExternalHandle.stop exOs).result = Except.ok () ∧
    (exExternalHandle.stop exOs).proc.pid = some 42 ∧
    (exExternalHandle.stop exOs).proc.monitor_handle = some () := by
  exact ⟨rfl, rfl, rfl⟩

/-- Claim C1 as amended: for every handle and regardless of kill outcome,
`stop()` clears `child` and `job_handle` before returning, but leaves
`primary_pid` (`pid`), the ownership flag (`started_by_app`), the Exit
Monitor registration (`monitor_handle`) and the path unchanged: the monitor
is released only when `AppState` drops the whole handle. -/
theorem C1_stop_clears_only_child_and_job (h : SyncthingProcess) (os : OsState) :
    (h.stop os).proc.child = none ∧
    (h.stop os).proc.job_handle = none ∧
    (h.stop os).proc.pid = h.pid ∧
    (h.stop os).proc.started_by_app = h.started_by_app ∧
    (h.stop os).proc.monitor_handle = h.monitor_handle ∧
    (h.stop os).proc.syncthing_path = h.syncthing_path := by
  obtain ⟨child, flag, path, pid, job, mon, has⟩ := h
  cases henum : os.enumFails <;>
    cases job <;> cases child <;> cases flag <;>
      simp_all [SyncthingProcess.stop, enumerate_processes_by_name]

/-! ### Claim C7 -/

/-- Claim C7 holds: `is_running()` is idempotent — with the OS state
unchanged, a second call returns the same boolean and the same handle as the
first (in particular it never clears, or double-clears, any field the first
call touched). -/
theorem C7_is_running_idempotent (h : SyncthingProcess) (os : OsState) :
    ((h.is_running os).proc.is_running os).running = (h.is_running os).running ∧
    ((h.is_running os).proc.is_running os).proc = (h.is_running os).proc := by
  obtain ⟨child, flag, path, pid, job, mon, has⟩ := h
  cases child with
  | none =>
    cases flag with
    | false =>
      cases hr : (SyncthingProcess.detect_process path false has os).result <;>
        simp [SyncthingProcess.is_running, hr]
    | true => simp [SyncthingProcess.is_running]
  | some c =>
    obtain ⟨cpid, cst⟩ := c
    cases flag with
    | false => simp [SyncthingProcess.is_running]
    | true =>
      cases cst with
      | some s => simp [SyncthingProcess.is_running]
      | none =>
        cases hw : os.tryWaitFails <;>
          cases halive : os.table.any (fun e => e.1 == cpid) <;>
            simp [SyncthingProcess.is_running, hw, halive]

/-- `stop_syncthing` never changes the configuration. -/
theorem AppState.stop_syncthing_config (st : AppState) (os : OsState) :
    (st.stop_syncthing os).state.config = st.config := by
  unfold AppState.stop_syncthing
  cases hp : st.syncthing_process with
  | none => rfl
  | some p => cases hr : (p.stop os).result <;> simp [hr]

/-- The external sweep of the exit closure issues exactly one taskkill per
process the configured identity matches (given a working process table and a
well-formed executable path). -/
theorem AppState.external_sweep_taskkills (st : AppState) (os : OsState)
    (he : os.enumFails = false) (hfn : fileName st.config.syncthing_path ≠ "") :
    taskkills (st.stop_external_syncthing_processes os).actions =
      matching_pids os st.config.syncthing_path := by
  unfold AppState.stop_external_syncthing_processes
  unfold SyncthingProcess.detect_process
  simp only [if_neg hfn]
  unfold enumerate_processes_by_name
  rw [he]
  simp only [Bool.false_eq_true, if_false]
  cases hfind : (os.table.filter
      (fun e => toLowerStr (fileName e.2) == toLowerStr (fileName st.config.syncthing_path))).find?
      (fun e => toLowerStr e.2 == toLowerStr st.config.syncthing_path) with
  | none =>
    simp only [hfind]
    have hfe : fileNameOr st.config.syncthing_path "syncthing.exe" =
        fileName st.config.syncthing_path := by
      simp [fileNameOr, hfn]
    unfold matching_pids
    rw [hfe]
    rw [List.find?_eq_none] at hfind
    rw [List.filter_eq_nil_iff.mpr hfind]
    rfl
  | some entry =>
    simp only [hfind]
    set pr : SyncthingProcess :=
      { syncthing_path := st.config.syncthing_path
        child := none
        started_by_app := false
        pid := some entry.1
        job_handle := none
        monitor_handle := if false && os.openProcOk && os.monitorRegOk then some () else none
        has_app_state := false } with hpr
    have hkills : taskkills (pr.stop os).actions = matching_pids os st.config.syncthing_path := by
      exact SyncthingProcess.stop_external_taskkills pr os rfl rfl rfl he
    cases hsr : (pr.stop os).result with
    | ok u =>
      simp only [hsr]
      unfold taskkills at hkills ⊢
      rw [List.filterMap_append]
      simp only [List.filterMap_cons, List.filterMap_nil]
      rw [← hkills]
      rfl
    | error e =>
      simp only [hsr]
      unfold taskkills at hkills ⊢
      rw [List.filterMap_append]
      simp only [List.filterMap_cons, List.filterMap_nil]
      rw [← hkills]
      rfl

/-! ### Claim C2 -/

/-- Claim C2 holds: for each closure policy crossed with each tracked-process
state, `handle_exit_closure` performs exactly the actions of the policy table.
`DontClose` performs nothing for any tracked state; `CloseManaged` performs
nothing when nothing is tracked or the tracked handle is External, and is
exactly `stop_syncthing` (whose OS actions are exactly the tracked handle's
own `stop`) when the tracked handle is ManagedByApp; `CloseAll` always
reports success, stops the tracked handle via `stop_syncthing` and
additionally sweeps the process table, issuing one best-effort taskkill per
remaining process matching the configured executable identity. -/
theorem C2_closure_policy_table (st : AppState) (os : OsState) :
    (st.config.process_closure_behavior = ProcessClosureBehavior.DontClose →
      st.handle_exit_closure os = ⟨st, [], [], Except.ok ()⟩) ∧
    (st.config.process_closure_behavior = ProcessClosureBehavior.CloseManaged →
      (st.syncthing_process = none →
        st.handle_exit_closure os = ⟨st, [], [], Except.ok ()⟩) ∧
      (∀ p, st.syncthing_process = some p → p.started_by_app = false →
        st.handle_exit_closure os = ⟨st, [], [], Except.ok ()⟩) ∧
      (∀ p, st.syncthing_process = some p → p.started_by_app = true →
        st.handle_exit_closure os = st.stop_syncthing os ∧
        (st.stop_syncthing os).actions = (p.stop os).actions)) ∧
    (st.config.process_closure_behavior = ProcessClosureBehavior.CloseAll →
      (st.handle_exit_closure os).result = Except.ok () ∧
      (st.handle_exit_closure os).state = (st.stop_syncthing os).state ∧
      (st.handle_exit_closure os).actions =
        (st.stop_syncthing os).actions ++
          ((st.stop_syncthing os).state.stop_external_syncthing_processes os).actions ∧
      (os.enumFails = false → fileName st.config.syncthing_path ≠ "" →
        taskkills
            (((st.stop_syncthing os).state.stop_external_syncthing_processes os).actions) =
          matching_pids os st.config.syncthing_path)) := by
  refine ⟨?_, ?_, ?_⟩
  · intro hb
    simp [AppState.handle_exit_closure, hb]
  · intro hb
    refine ⟨?_, ?_, ?_⟩
    · intro hnone
      simp [AppState.handle_exit_closure, AppState.stop_managed_syncthing_processes, hb, hnone]
    · intro p hp hflag
      simp [AppState.handle_exit_closure, AppState.stop_managed_syncthing_processes, hb, hp, hflag]
    · intro p hp hflag
      constructor
      · simp [AppState.handle_exit_closure, AppState.stop_managed_syncthing_processes, hb, hp, hflag]
      · cases hr : (p.stop os).result <;>
          simp [AppState.stop_syncthing, hp, hr]
  · intro hb
    refine ⟨?_, ?_, ?_, ?_⟩
    · simp [AppState.handle_exit_closure, AppState.stop_all_syncthing_processes, hb]
    · simp [AppState.handle_exit_closure, AppState.stop_all_syncthing_processes, hb]
    · simp [AppState.handle_exit_closure, AppState.stop_all_syncthing_processes, hb]
    · intro he hfn
      have hcfg := AppState.stop_syncthing_config st os
      have := AppState.external_sweep_taskkills ((st.stop_syncthing os).state) os he
        (by rw [hcfg]; exact hfn)
      rw [this, hcfg]

/-- Witness for C2: the DontClose row, and the CloseManaged-with-External row,
of the policy table at concrete states. -/
theorem C2_witness :
    ((exStateWith ProcessClosureBehavior.DontClose (some exExternalHandle)).handle_exit_closure exOs
      = ⟨exStateWith ProcessClosureBehavior.DontClose (some exExternalHandle), [], [], Except.ok ()⟩) ∧
    ((exStateWith ProcessClosureBehavior.CloseManaged (some exExternalHandle)).handle_exit_closure exOs
      = ⟨exStateWith ProcessClosureBehavior.CloseManaged (some exExternalHandle), [], [], Except.ok ()⟩) :=
  ⟨(C2_closure_policy_table (exStateWith ProcessClosureBehavior.DontClose (some exExternalHandle)) exOs).1 rfl,
   ((C2_closure_policy_table (exStateWith ProcessClosureBehavior.CloseManaged (some exExternalHandle)) exOs).2.1 rfl).2.1
     exExternalHandle rfl rfl⟩

/-! ### Claim C3 -/

/-- Claim C3 is false on the code at a concrete input: with an external
process still tracked (so the status derived from `AppState` is `Running`,
equal to the last-rendered status), receiving an `Exited` event makes the
consumer render `Stopped` — it trusts the event payload instead of the
re-derived status, and it updates the UI although the derived status does not
differ from the last-rendered one. -/
theorem C3_counterexample :
    TrayUi.monitor_step (RecvOutcome.event ProcessEvent.Exited)
        (exStateWith ProcessClosureBehavior.CloseAll (some exExternalHandle))
        (some TrayState.Running)
      = (some TrayState.Stopped, true) ∧
    (TrayUi.get_current_process_state
        (exStateWith ProcessClosureBehavior.CloseAll (some exExternalHandle))).1
      = TrayState.Running := by
  exact ⟨rfl, rfl⟩

/-- Claim C3 as amended: the consumer loop re-derives the status from
`AppState` only for `StateChanged`/`Error` events and for receive timeouts;
for `Started` and `Exited` it adopts the status implied by the event tag
without consulting `AppState`.  In every case it updates the UI, and advances
its last-rendered status, exactly when the adopted status differs from the
last-rendered status. -/
theorem C3_monitor_step_spec (recv : RecvOutcome) (st : AppState)
    (last_state : Option TrayState) :
    TrayUi.monitor_step recv st last_state =
      (let ns : TrayState :=
        match recv with
        | RecvOutcome.event ProcessEvent.Started => TrayState.Running
        | RecvOutcome.event ProcessEvent.Exited => TrayState.Stopped
        | _ => (TrayUi.get_current_process_state st).1
      if last_state = some ns then (last_state, false) else (some ns, true)) := by
  cases recv with
  | timeout => simp [TrayUi.monitor_step, ne_eq, ite_not]
  | event e => cases e <;> simp [TrayUi.monitor_step, ne_eq, ite_not]

/-! ### Claim C4 -/

/-- Claim C4 is false on the code at a concrete input: `start()` on a handle
that already owns a live child (pid 5) succeeds and spawns a second process
(pid 57), overwriting the child, instead of failing with an
`AlreadySpawned`-style error. -/
theorem C4_counterexample :
    exManagedHandle.child = some { pid := 5, cachedStatus := none } ∧
    (exManagedHandle.start ["-no-browser"] exOs).result = Except.ok () ∧
    (exManagedHandle.start ["-no-browser"] exOs).proc.child
      = some { pid := 57, cachedStatus := none } ∧
    (exManagedHandle.start ["-no-browser"] exOs).actions
      = [OsAction.spawn "c:\\st\\syncthing.exe" ["-no-browser"]] := by
  exact ⟨rfl, rfl, rfl, rfl⟩

/-- Detection performs no spawn. -/
theorem spawnsOf_detect (path : String) (eo has : Bool) (os : OsState) :
    spawnsOf (SyncthingProcess.detect_process path eo has os).actions = [] := by
  unfold SyncthingProcess.detect_process
  cases henum : os.enumFails <;>
    simp only [enumerate_processes_by_name, henum, Bool.false_eq_true, if_false, if_true] <;>
      split <;>
        first
        | rfl
        | (split <;> rfl)

/-- `is_running` performs no spawn. -/
theorem spawnsOf_is_running (h : SyncthingProcess) (os : OsState) :
    spawnsOf (h.is_running os).actions = [] := by
  obtain ⟨child, flag, path, pid, job, mon, has⟩ := h
  cases child with
  | none =>
    cases flag with
    | false =>
      have hd := spawnsOf_detect path false has os
      cases hr : (SyncthingProcess.detect_process path false has os).result <;>
        simp only [SyncthingProcess.is_running, hr] <;> exact hd
    | true => rfl
  | some c =>
    cases flag with
    | false => rfl
    | true =>
      cases hcs : c.cachedStatus <;>
        simp only [SyncthingProcess.is_running, hcs]
      · cases hw : os.tryWaitFails <;>
          cases halive : os.table.any (fun e => e.1 == c.pid) <;>
            simp [hw, halive, spawnsOf]
      · rfl

/-- `syncthing_running` performs no spawn. -/
theorem spawnsOf_syncthing_running (st : AppState) (os : OsState) :
    spawnsOf (st.syncthing_running os).actions = [] := by
  unfold AppState.syncthing_running
  cases hp : st.syncthing_process with
  | some p =>
    have := spawnsOf_is_running p os
    cases hr : (p.is_running os).running <;> simp_all
  | none =>
    unfold AppState.detect_and_attach_external
    have := spawnsOf_detect st.config.syncthing_path true false os
    cases hr : (SyncthingProcess.detect_process st.config.syncthing_path true false os).result with
    | ok o => cases o <;> simp_all
    | error e => simp_all

/-- Claim C4 as amended: `SyncthingProcess::start` performs no
already-spawned check — it succeeds exactly when job creation, spawning and
job assignment succeed, irrespective of any live child the handle already
owns, and on success it overwrites `child` and `pid` with the newly spawned
process.  The guard against double-starting lives one level up:
`AppState::start_syncthing` returns `Ok` without performing any spawn action
when `syncthing_running()` reports true. -/
theorem C4_start_no_already_spawned_check :
    (∀ (h : SyncthingProcess) (args : List String) (os : OsState),
      (h.start args os).result = Except.ok () ↔
        (os.jobCreateOk = true ∧ os.spawnResult.isSome = true ∧ os.assignOk = true)) ∧
    (∀ (h : SyncthingProcess) (args : List String) (os : OsState) (newPid : Nat),
      os.jobCreateOk = true → os.spawnResult = some newPid → os.assignOk = true →
      (h.start args os).proc.child = some { pid := newPid, cachedStatus := none } ∧
      (h.start args os).proc.pid = some newPid) ∧
    (∀ (st : AppState) (os : OsState),
      (st.syncthing_running os).running = true →
      st.start_syncthing os = ⟨(st.syncthing_running os).state,
        (st.syncthing_running os).actions, (st.syncthing_running os).events,
        Except.ok ()⟩ ∧
      spawnsOf (st.start_syncthing os).actions = []) := by
  refine ⟨?_, ?_, ?_⟩
  · intro h args os
    cases hj : os.jobCreateOk <;>
      cases hs : os.spawnResult <;>
        cases ha : os.assignOk <;>
          simp [SyncthingProcess.start, hj, hs, ha]
  · intro h args os newPid hj hs ha
    cases hmon : h.has_app_state && os.monitorRegOk <;>
      simp [SyncthingProcess.start, hj, hs, ha, hmon]
  · intro st os hrun
    have heq : st.start_syncthing os = ⟨(st.syncthing_running os).state,
        (st.syncthing_running os).actions, (st.syncthing_running os).events,
        Except.ok ()⟩ := by
      simp [AppState.start_syncthing, hrun]
    refine ⟨heq, ?_⟩
    rw [heq]
    exact spawnsOf_syncthing_running st os

/-- Witness for C4: at the fixture inputs, a second spawn happens on a handle
that already owns a live child, and `start_syncthing` on a state whose
tracked child is alive performs no spawn. -/
theorem C4_witness :
    ((exManagedHandle.start ["-x"] exOs).proc.child
        = some { pid := 57, cachedStatus := none } ∧
      (exManagedHandle.start ["-x"] exOs).proc.pid = some 57) ∧
    spawnsOf ((exStateWith ProcessClosureBehavior.CloseManaged
        (some exManagedHandle)).start_syncthing exOsWithChild).actions = [] :=
  ⟨C4_start_no_already_spawned_check.2.1 exManagedHandle ["-x"] exOs 57 rfl rfl rfl,
   (C4_start_no_already_spawned_check.2.2
      (exStateWith ProcessClosureBehavior.CloseManaged (some exManagedHandle))
      exOsWithChild rfl).2⟩

/-! ### Claim C5 -/

/-- Claim C5 is false on the code at a concrete input: `stop()` on an
External handle whose primary pid is 42, against an OS that denies kill
requests and whose table also holds a second matching process 77, issues
taskkills for both 42 and 77 (not only `primary_pid`) and returns success
rather than a `PermissionDenied` error. -/
theorem C5_counterexample :
    exOs.killDenied = true ∧
    (exExternalHandle.stop exOs).result = Except.ok () ∧
    exExternalHandle.pid = some 42 ∧
    taskkills (exExternalHandle.stop exOs).actions = [42, 77] := by
  refine ⟨rfl, rfl, rfl, ?_⟩
  decide

/-- Claim C5 as amended: for an External handle, `stop()` re-enumerates the
process table and issues one best-effort taskkill per running process whose
identity matches the handle's configured path (not just `primary_pid`); the
kill outcomes are discarded, so it returns success even when the OS denies
the requests, and the only error it can return is a failure of the
enumeration itself — in every case the handle is returned unchanged. -/
theorem C5_stop_external_best_effort (h : SyncthingProcess) (os : OsState)
    (hc : h.child = none) (hf : h.started_by_app = false) (hj : h.job_handle = none) :
    (os.enumFails = true →
      h.stop os = ⟨h, [OsAction.enumQuery (fileNameOr h.syncthing_path "syncthing.exe")],
        Except.error IoError.enumFailed⟩) ∧
    (os.enumFails = false →
      (h.stop os).result = Except.ok () ∧
      (h.stop os).proc = h ∧
      taskkills (h.stop os).actions = matching_pids os h.syncthing_path) := by
  constructor
  · intro he
    obtain ⟨child, flag, path, pid, job, mon, has⟩ := h
    simp only at hc hf hj
    subst hc hf hj
    simp [SyncthingProcess.stop, enumerate_processes_by_name, he]
  · intro he
    refine ⟨?_, ?_, SyncthingProcess.stop_external_taskkills h os hc hf hj he⟩
    · rw [SyncthingProcess.stop_external_spec h os hc hf hj he]
    · rw [SyncthingProcess.stop_external_spec h os hc hf hj he]

/-- Witness for C5: the amended characterisation applied to the External
fixture handle against both the working-table OS and the failing-table OS. -/
theorem C5_witness :
    ((exExternalHandle.stop exOsEnumFail)
        = ⟨exExternalHandle, [OsAction.enumQuery "syncthing.exe"],
            Except.error IoError.enumFailed⟩) ∧
    ((exExternalHandle.stop exOs).result = Except.ok () ∧
      (exExternalHandle.stop exOs).proc = exExternalHandle ∧
      taskkills (exExternalHandle.stop exOs).actions
        = matching_pids exOs "c:\\st\\syncthing.exe") :=
  ⟨(C5_stop_external_best_effort exExternalHandle exOsEnumFail rfl rfl rfl).1 rfl,
   (C5_stop_external_best_effort exExternalHandle exOs rfl rfl rfl).2 rfl⟩

/-! ### Claim C6 -/

/-- Claim C6 is false on the code at a concrete input: when the process-table
query fails, `detect_and_attach_external` propagates an error to its caller
(leaving the state unchanged) instead of reporting "not found". -/
theorem C6_counterexample :
    ((exStateWith ProcessClosureBehavior.CloseManaged none).detect_and_attach_external
        exOsEnumFail).result
      = Except.error (AppError.processError
          "Failed to detect external Syncthing: process table query failed") ∧
    ((exStateWith ProcessClosureBehavior.CloseManaged none).detect_and_attach_external
        exOsEnumFail).state
      = exStateWith ProcessClosureBehavior.CloseManaged none := by
  exact ⟨rfl, rfl⟩

/-- Claim C6 as amended: `detect_process` and `detect_and_attach_external`
propagate a process-table query failure to their caller as an error, but
every consuming call site absorbs it as "no process found": `AppState::new`
starts with no tracked process, and `syncthing_running` answers false with
the state unchanged and no event sent, so a detection failure never blocks
the application. -/
theorem C6_detection_failure_absorbed (os : OsState) (he : os.enumFails = true) :
    (∀ config : Config, (AppState.new config os).syncthing_process = none) ∧
    (∀ st : AppState, st.syncthing_process = none →
      (st.syncthing_running os).running = false ∧
      (st.syncthing_running os).state = st ∧
      (st.syncthing_running os).events = []) := by
  constructor
  · intro config
    unfold AppState.new SyncthingProcess.detect_process
    by_cases hfn : fileName config.syncthing_path = ""
    · simp [hfn]
    · simp [hfn, enumerate_processes_by_name, he]
  · intro st hnone
    unfold AppState.syncthing_running AppState.detect_and_attach_external
      SyncthingProcess.detect_process
    by_cases hfn : fileName st.config.syncthing_path = ""
    · simp [hnone, hfn]
    · simp [hnone, hfn, enumerate_processes_by_name, he]

/-- Witness for C6: at the failing-table fixture, startup tracks nothing and
`syncthing_running` answers false. -/
theorem C6_witness :
    (AppState.new (exConfig ProcessClosureBehavior.CloseManaged)
        exOsEnumFail).syncthing_process = none ∧
    ((exStateWith ProcessClosureBehavior.CloseManaged none).syncthing_running
        exOsEnumFail).running = false :=
  ⟨(C6_detection_failure_absorbed exOsEnumFail rfl).1
      (exConfig ProcessClosureBehavior.CloseManaged),
   ((C6_detection_failure_absorbed exOsEnumFail rfl).2
      (exStateWith ProcessClosureBehavior.CloseManaged none) rfl).1⟩

/-! ### Claim C8 -/

/-- Claim C8 holds: a successful `start()` always leaves the handle with
`started_by_app = true` (ManagedByApp); a handle produced by detection always
carries `started_by_app = false` (External); and neither `stop()`, nor
`is_running()`, nor exit handling (which only ever drops the tracked handle
or leaves it untouched) changes the flag of an existing handle. -/
theorem C8_ownership_immutable :
    (∀ (h : SyncthingProcess) (args : List String) (os : OsState),
      (h.start args os).result = Except.ok () →
      (h.start args os).proc.started_by_app = true) ∧
    (∀ (path : String) (eo has : Bool) (os : OsState) (p : SyncthingProcess),
      (SyncthingProcess.detect_process path eo has os).result = Except.ok (some p) →
      p.started_by_app = false) ∧
    (∀ (h : SyncthingProcess) (os : OsState),
      (h.stop os).proc.started_by_app = h.started_by_app) ∧
    (∀ (h : SyncthingProcess) (os : OsState),
      (h.is_running os).proc.started_by_app = h.started_by_app) ∧
    (∀ (st : AppState) (pid : Nat) (os : OsState),
      (st.handle_process_exit pid os).state.syncthing_process = none ∨
      (st.handle_process_exit pid os).state.syncthing_process = st.syncthing_process) := by
  refine ⟨?_, ?_, ?_, ?_, ?_⟩
  · intro h args os hok
    cases hj : os.jobCreateOk <;>
      cases hs : os.spawnResult <;>
        cases ha : os.assignOk <;>
          simp_all [SyncthingProcess.start] <;>
            split <;> rfl
  · intro path eo has os p hok
    unfold SyncthingProcess.detect_process at hok
    by_cases hfn : fileName path = ""
    · simp [hfn] at hok
    · simp only [if_neg hfn] at hok
      cases he : os.enumFails <;>
        simp only [enumerate_processes_by_name, he, Bool.false_eq_true,
          if_false, if_true] at hok
      · cases hfind : (os.table.filter
            (fun e => toLowerStr (fileName e.2) == toLowerStr (fileName path))).find?
            (fun e => toLowerStr e.2 == toLowerStr path) <;>
          simp only [hfind] at hok
        · cases hok
        · obtain ⟨rfl⟩ := Except.ok.inj hok |> Option.some.inj |> Eq.symm
          rfl
      · cases hok
  · intro h os
    obtain ⟨child, flag, path, pid, job, mon, has⟩ := h
    cases henum : os.enumFails <;>
      cases job <;> cases child <;> cases flag <;>
        simp_all [SyncthingProcess.stop, enumerate_processes_by_name]
  · intro h os
    obtain ⟨child, flag, path, pid, job, mon, has⟩ := h
    cases child with
    | none =>
      cases flag with
      | false =>
        cases hr : (SyncthingProcess.detect_process path false has os).result <;>
          simp [SyncthingProcess.is_running, hr]
      | true => rfl
    | some c =>
      cases flag with
      | false => rfl
      | true =>
        cases hcs : c.cachedStatus with
        | none =>
          cases hw : os.tryWaitFails <;>
            cases halive : os.table.any (fun e => e.1 == c.pid) <;>
              simp [SyncthingProcess.is_running, hcs, hw, halive]
        | some s => simp [SyncthingProcess.is_running, hcs]
  · intro st pid os
    unfold AppState.handle_process_exit
    cases hp : st.syncthing_process with
    | none => right; simp [hp]
    | some p =>
      cases hpe : p.pid == some pid with
      | true => left; simp [hpe]
      | false =>
        cases hflag : p.started_by_app with
        | true => right; simp [hp, hpe, hflag]
        | false =>
          cases hr : (SyncthingProcess.detect_process st.config.syncthing_path true
              false os).result with
          | error e => right; simp [hp, hpe, hflag, hr]
          | ok o =>
            cases o with
            | none => left; simp [hpe, hflag, hr]
            | some q => right; simp [hp, hpe, hflag, hr]

/-- Witness for C8: the ownership tags of a concrete started handle and a
concrete detected handle. -/
theorem C8_witness :
    ((SyncthingProcess.new "c:\\st\\syncthing.exe" false).start ["-x"] exOs).proc.started_by_app
      = true ∧
    SyncthingProcess.started_by_app
      { child := none
        started_by_app := false
        syncthing_path := "c:\\st\\syncthing.exe"
        pid := some 42
        job_handle := none
        monitor_handle := none
        has_app_state := false } = false :=
  ⟨C8_ownership_immutable.1 (SyncthingProcess.new "c:\\st\\syncthing.exe" false) ["-x"] exOs rfl,
   C8_ownership_immutable.2.1 "c:\\st\\syncthing.exe" true false exOs _ rfl⟩

/-! ### Claim C9 -/

/-- Claim C9 holds: a `handle_process_exit` invocation while no process is
tracked (in particular a second delivery for a pid whose first delivery
already cleared the state) is a total no-op — the state is unchanged, no OS
action is performed and no event is sent. -/
theorem C9_duplicate_exit_noop (st : AppState) (pid : Nat) (os : OsState)
    (hnone : st.syncthing_process = none) :
    st.handle_process_exit pid os = ⟨st, [], []⟩ := by
  unfold AppState.handle_process_exit
  simp [hnone]

/-- Witness for C9: a first exit delivery for the tracked pid 42 clears the
state, and the duplicate delivery is a no-op on the cleared state. -/
theorem C9_witness :
    ((exStateWith ProcessClosureBehavior.CloseAll (some exExternalHandle)).handle_process_exit
        42 exOs).state.syncthing_process = none ∧
    ((exStateWith ProcessClosureBehavior.CloseAll (some exExternalHandle)).handle_process_exit
        42 exOs).state.handle_process_exit 42 exOs
      = ⟨((exStateWith ProcessClosureBehavior.CloseAll (some exExternalHandle)).handle_process_exit
            42 exOs).state, [], []⟩ :=
  ⟨rfl, C9_duplicate_exit_noop _ 42 exOs rfl⟩

/-! ### Claim C10 -/

/-- Claim C10 holds: when the tracked handle's `stop()` fails,
`stop_syncthing` returns that error with the application state unchanged —
the process is still tracked and no `Exited` event is sent — and the tracked
handle is cleared to `None` exactly when `stop()` succeeds. -/
theorem C10_stop_error_keeps_state (st : AppState) (os : OsState) (p : SyncthingProcess)
    (hp : st.syncthing_process = some p) :
    (∀ e, (p.stop os).result = Except.error e →
      st.stop_syncthing os = ⟨st, (p.stop os).actions, [],
        Except.error (AppError.processError ("Failed to stop Syncthing: " ++ e.msg))⟩) ∧
    ((p.stop os).result = Except.ok () →
      (st.stop_syncthing os).state.syncthing_process = none ∧
      (st.stop_syncthing os).result = Except.ok ()) := by
  constructor
  · intro e he
    have hproc := SyncthingProcess.stop_error_proc_eq p os e he
    simp only [AppState.stop_syncthing, hp, he, hproc]
    rw [AppState.set_tracked_eq_self st p hp]
  · intro hok
    simp [AppState.stop_syncthing, hp, hok]

/-- Witness for C10: stopping a tracked external handle against a failing
process table returns the error with the state unchanged and no event. -/
theorem C10_witness :
    (exStateWith ProcessClosureBehavior.CloseAll (some exExternalHandle)).stop_syncthing
        exOsEnumFail
      = ⟨exStateWith ProcessClosureBehavior.CloseAll (some exExternalHandle),
          [OsAction.enumQuery "syncthing.exe"], [],
          Except.error (AppError.processError
            "Failed to stop Syncthing: process table query failed")⟩ :=
  (C10_stop_error_keeps_state
      (exStateWith ProcessClosureBehavior.CloseAll (some exExternalHandle))
      exOsEnumFail exExternalHandle rfl).1 IoError.enumFailed rfl
